import Mathlib

/-!
Verification of the data-preparation and aggregation pipeline of the
public-transportation dashboard repository.

The source is a Python/pandas notebook (plus a small Streamlit counter
widget).  Rows of the CSV are modelled as records carrying a derived
region attribute and a valuation of column names in `ℚ`; a dataset
carries an explicit schema (the list of column names) so that column
presence checks (`col in df.columns`) are meaningful.  `pandas`
`sort_values` (default `kind='quicksort'`, which is not stable) is
modelled by the concrete correct sort `List.insertionSort`; no theorem
below relies on the tie order of this model, only on sort-generic
properties (sortedness and being a permutation of the input).
-/

namespace PublicTransport

/-- One row of the dataset: the derived region attribute (the
`Governorate` column produced by the loader) together with the numeric
value the row holds in each named column. -/
structure Record where
  region : String
  val : String → ℚ

/-- A loaded dataset: the schema (column names, as in `df.columns`) and
the ordered rows. -/
structure Dataset where
  cols : List String
  rows : List Record

/-- `df[c].sum()`: the sum of column `c` over all rows. -/
def colSum (df : Dataset) (c : String) : ℚ :=
  (df.rows.map (fun r => r.val c)).sum

/-- `len(df)` as a rational, the denominator of the percentage
computations. -/
def rowCount (df : Dataset) : ℚ :=
  (df.rows.length : ℚ)

/-- Number of records whose value in column `c` equals `1`. -/
def countOnes (df : Dataset) (c : String) : Nat :=
  (df.rows.filter (fun r => decide (r.val c = 1))).length

/-- Modelled from the spec: the region filter of the aggregation engine
(`regionFilter` in the external interface).  The filtering widget lives
in the dashboard app variants, which are not under `src/`; the spec
describes it as restriction of the dataset to the rows whose region is
in the selected list. -/
def filterRegions (ds : Dataset) (R : List String) : Dataset :=
  ⟨ds.cols, ds.rows.filter (fun r => decide (r.region ∈ R))⟩

/-! ### Region derivation and column normalisation (loader) -/

/-- Embeds `df['refArea'].str.extract(r'/([^/]+)$')`: the substring after
the final `/`, provided the string contains a `/` and the final segment
is nonempty; otherwise no match. -/
def extractGovernorate (s : String) : Option String :=
  let r := s.data.reverse
  let seg := r.takeWhile (fun c => decide (c ≠ '/'))
  if '/' ∈ r ∧ seg ≠ [] then some (String.mk seg.reverse) else none

/-- Embeds the per-name effect of `df.columns.str.strip()`: drop
whitespace characters from both ends of the name. -/
def normalizeName (s : String) : String :=
  String.mk (((s.data.dropWhile Char.isWhitespace).reverse.dropWhile
    Char.isWhitespace).reverse)

/-- Embeds `df.columns = df.columns.str.strip()`. -/
def normalizeColumns (cols : List String) : List String :=
  cols.map normalizeName

/-! ### String ordering (pandas `groupby` sorts its group keys) -/

/-- Lexicographic comparison of character lists by code point, the order
in which pandas sorts string group keys. -/
def charListLe : List Char → List Char → Bool
  | [], _ => true
  | _ :: _, [] => false
  | a :: as, b :: bs =>
    if a.toNat < b.toNat then true
    else if b.toNat < a.toNat then false
    else charListLe as bs

/-- Lexicographic order on strings used for group keys. -/
def strLe (s t : String) : Prop :=
  charListLe s.data t.data = true

instance : DecidableRel strLe := fun s t =>
  inferInstanceAs (Decidable (charListLe s.data t.data = true))

/-! ### Grouping by region (`df.groupby("Governorate")`) -/

/-- The `Governorate` column of the dataset, in row order. -/
def regionList (df : Dataset) : List String :=
  df.rows.map (fun r => r.region)

/-- Group keys of `df.groupby("Governorate")`: the distinct regions,
in the sorted order pandas produces (`groupby` sorts its keys). -/
def groupKeys (df : Dataset) : List String :=
  List.insertionSort strLe (regionList df).dedup

/-- The rows belonging to one group. -/
def groupRows (df : Dataset) (g : String) : List Record :=
  df.rows.filter (fun r => decide (r.region = g))

/-- Mean of column `c` over the group of region `g`. -/
def groupMean (df : Dataset) (c g : String) : ℚ :=
  ((groupRows df g).map (fun r => r.val c)).sum / ((groupRows df g).length : ℚ)

/-- Comparison used by `sort_values(c, ascending=False)` on the
per-region means. -/
def valueDesc : (String × ℚ) → (String × ℚ) → Prop :=
  fun p q => q.2 ≤ p.2

instance : DecidableRel valueDesc :=
  fun p q => inferInstanceAs (Decidable (q.2 ≤ p.2))

instance : IsTotal (String × ℚ) valueDesc :=
  ⟨fun p q => le_total q.2 p.2⟩

instance : IsTrans (String × ℚ) valueDesc :=
  ⟨fun _ _ _ h1 h2 => le_trans h2 h1⟩

/-- Embeds the notebook's bar-chart pipeline:
`df.groupby("Governorate")[c].mean().reset_index().sort_values(c, ascending=False)`.
`sort_values` (default quicksort, not stable, so with
implementation-defined tie order) is realised by the concrete correct
sort `List.insertionSort`; only its sortedness and permutation
properties are used in the theorems below. -/
def mainRoadsAgg (df : Dataset) (c : String) : List (String × ℚ) :=
  List.insertionSort valueDesc ((groupKeys df).map (fun g => (g, groupMean df c g)))

/-- `aggregateByRegion` of the external interface: the notebook
aggregation applied to the region-filtered dataset (the filter itself is
modelled from the spec, see `filterRegions`). -/
def aggregateByRegion (ds : Dataset) (R : List String) (c : String) :
    List (String × ℚ) :=
  mainRoadsAgg (filterRegions ds R) c

/-! ### Service badness and coverage percentages -/

/-- `problem_percentage = (bad_count / total_areas) * 100`. -/
def problemPercentage (df : Dataset) (c : String) : ℚ :=
  colSum df c / rowCount df * 100

/-- `coverage_percentage = (good_areas / total_areas) * 100`. -/
def coveragePercentage (df : Dataset) (c : String) : ℚ :=
  colSum df c / rowCount df * 100

/-- The `infrastructure_problems` loop: for each `(service, bad_col)` of
the mapping, if the column is in the schema, append
`(service, problem_percentage, bad_count)`; otherwise skip the entry. -/
def infrastructureProblems (df : Dataset) :
    List (String × String) → List (String × ℚ × ℚ)
  | [] => []
  | e :: m =>
    if e.2 ∈ df.cols then
      (e.1, problemPercentage df e.2, colSum df e.2) :: infrastructureProblems df m
    else infrastructureProblems df m

/-- Comparison used by `sort_values('Problem_Severity', ascending=True)`. -/
def severityAsc : (String × ℚ × ℚ) → (String × ℚ × ℚ) → Prop :=
  fun p q => p.2.1 ≤ q.2.1

instance : DecidableRel severityAsc :=
  fun p q => inferInstanceAs (Decidable (p.2.1 ≤ q.2.1))

instance : IsTotal (String × ℚ × ℚ) severityAsc :=
  ⟨fun p q => le_total p.2.1 q.2.1⟩

instance : IsTrans (String × ℚ × ℚ) severityAsc :=
  ⟨fun _ _ _ h1 h2 => le_trans h1 h2⟩

/-- `serviceBadness` of the external interface: the
`infrastructure_problems` loop on the filtered dataset, sorted ascending
by severity. -/
def serviceBadness (ds : Dataset) (R : List String)
    (m : List (String × String)) : List (String × ℚ × ℚ) :=
  List.insertionSort severityAsc (infrastructureProblems (filterRegions ds R) m)

/-- The `coverage_data` loop: for each `(service, good_col)` of the
mapping, if the column is in the schema, append
`(service, coverage_percentage, good_areas, total_areas - good_areas)`. -/
def coverageRows (df : Dataset) :
    List (String × String) → List (String × ℚ × ℚ × ℚ)
  | [] => []
  | e :: m =>
    if e.2 ∈ df.cols then
      (e.1, coveragePercentage df e.2, colSum df e.2, rowCount df - colSum df e.2) ::
        coverageRows df m
    else coverageRows df m

/-- Comparison used by `sort_values('Coverage_Percentage', ascending=False)`. -/
def coverageDesc : (String × ℚ × ℚ × ℚ) → (String × ℚ × ℚ × ℚ) → Prop :=
  fun p q => q.2.1 ≤ p.2.1

instance : DecidableRel coverageDesc :=
  fun p q => inferInstanceAs (Decidable (q.2.1 ≤ p.2.1))

instance : IsTotal (String × ℚ × ℚ × ℚ) coverageDesc :=
  ⟨fun p q => le_total q.2.1 p.2.1⟩

instance : IsTrans (String × ℚ × ℚ × ℚ) coverageDesc :=
  ⟨fun _ _ _ h1 h2 => le_trans h2 h1⟩

/-- `serviceCoverage` of the external interface: the `coverage_data`
loop on the filtered dataset, sorted descending by coverage. -/
def serviceCoverage (ds : Dataset) (R : List String)
    (m : List (String × String)) : List (String × ℚ × ℚ × ℚ) :=
  List.insertionSort coverageDesc (coverageRows (filterRegions ds R) m)

/-! ### Transport-mode distribution (pie chart) -/

def busCol : String := "The main means of public transport - buses"

def vanCol : String := "The main means of public transport - vans"

def taxiCol : String := "The main means of public transport - taxis"

/-- The `transport_modes` dictionary before filtering: each mode with
the sum of its indicator column over the whole dataset. -/
def transportModesBase (df : Dataset) : List (String × ℚ) :=
  [("Buses", colSum df busCol), ("Vans", colSum df vanCol),
   ("Taxis", colSum df taxiCol)]

/-- `transport_modes = {k: v for k, v in transport_modes.items() if v > 0}`. -/
def transportModes (df : Dataset) : List (String × ℚ) :=
  (transportModesBase df).filter (fun p => decide (0 < p.2))

def transportCols : List String :=
  [busCol, vanCol, taxiCol]

/-- Modelled from the spec: `aggregateTransportSums` — per-region sums
of every transport-mode indicator column over the filtered subset.  The
per-region variant feeds the scatter chart of the app variants, which
are not under `src/`; only the whole-dataset sums (`transportModesBase`)
appear in the notebook. -/
def aggregateTransportSums (ds : Dataset) (R : List String) :
    List (String × List (String × ℚ)) :=
  let df := filterRegions ds R
  (groupKeys df).map (fun g =>
    (g, transportCols.map (fun c => (c, ((groupRows df g).map (fun r => r.val c)).sum))))

/-! ### Loader with synthetic fallback -/

/-- Failure mode of the loader: source file missing or unreadable. -/
inductive LoadError where
  | dataUnavailable

/-- Embeds `pd.read_csv(path)` over an abstract file system `src`: a
present file parses to a dataset, a missing file raises, i.e. produces
the `DataUnavailable` condition. -/
def load (src : String → Option Dataset) (path : String) :
    Except LoadError Dataset :=
  match src path with
  | none => Except.error LoadError.dataUnavailable
  | some d => Except.ok d

/-- Modelled from the spec: the fixed synthetic dataset (fixed random
seed, fixed region list, fixed indicator probabilities) the caller
substitutes when the source file is unavailable.  The fallback lives in
the dashboard app variants, which are not under `src/`. -/
def syntheticDataset : Dataset :=
  ⟨["State of the main roads - good", "State of the main roads - bad"],
   [⟨"Akkar", fun c => if c = "State of the main roads - good" then 1 else 0⟩,
    ⟨"Beirut", fun c => if c = "State of the main roads - bad" then 1 else 0⟩]⟩

/-- Modelled from the spec: the caller of `load` substitutes
`syntheticDataset` whenever `load` signals `DataUnavailable`, so the
rest of the pipeline always receives a valid dataset. -/
def loadOrSynthetic (src : String → Option Dataset) (path : String) : Dataset :=
  match load src path with
  | Except.ok d => d
  | Except.error _ => syntheticDataset

/-! ### Correlation (insight derivation) -/

/-- Arithmetic mean of a list of rationals. -/
def qmean (l : List ℚ) : ℚ :=
  l.sum / (l.length : ℚ)

/-- Modelled from the spec: the standard Pearson correlation coefficient
of two aligned series.  The correlation code belongs to the app
variants, which are not under `src/`. -/
noncomputable def pearson (xs ys : List ℚ) : ℝ :=
  let mx := qmean xs
  let my := qmean ys
  let cov : ℚ := ((xs.zip ys).map (fun p => (p.1 - mx) * (p.2 - my))).sum
  let vx : ℚ := (xs.map (fun x => (x - mx) ^ 2)).sum
  let vy : ℚ := (ys.map (fun y => (y - my) ^ 2)).sum
  (cov : ℝ) / (Real.sqrt (vx : ℝ) * Real.sqrt (vy : ℝ))

/-- Modelled from the spec: `correlation(seriesA, seriesB)` returns the
distinct `Undefined` sentinel (`none`) when the aggregate has fewer than
two data points, and the Pearson coefficient otherwise. -/
noncomputable def correlation (xs ys : List ℚ) : Option ℝ :=
  if xs.length < 2 ∨ ys.length < 2 then none else some (pearson xs ys)

/-! ### The counter widget -/

/-- The two interactions of the counter app: the increment-by-1 button
and the increment-by-slider button. -/
inductive CounterEvent where
  | clickOne
  | clickSlider (inc : ℤ)

/-- Effect of one interaction on `st.session_state.count`. -/
def counterStep (s : ℤ) : CounterEvent → ℤ
  | CounterEvent.clickOne => s + 1
  | CounterEvent.clickSlider inc => s + inc

/-- An event the widget can actually deliver: the slider is constrained
to the range 1..10. -/
def validEvent : CounterEvent → Prop
  | CounterEvent.clickOne => True
  | CounterEvent.clickSlider inc => 1 ≤ inc ∧ inc ≤ 10

instance : DecidablePred validEvent := fun e => by
  cases e with
  | clickOne => exact inferInstanceAs (Decidable True)
  | clickSlider i => exact inferInstanceAs (Decidable (1 ≤ i ∧ i ≤ 10))

/-- Counts reachable from the initial `st.session_state.count = 0` by
valid interactions. -/
inductive ReachableCount : ℤ → Prop where
  | init : ReachableCount 0
  | step (s : ℤ) (e : CounterEvent) : ReachableCount s → validEvent e →
      ReachableCount (counterStep s e)

/-! ### Helper lemmas -/

/-- The `infrastructure_problems` loop keeps exactly the mapping entries
whose column is present, in order. -/
theorem infrastructureProblems_eq (df : Dataset) :
    ∀ m : List (String × String),
      infrastructureProblems df m =
        (m.filter (fun e => decide (e.2 ∈ df.cols))).map
          (fun e => (e.1, problemPercentage df e.2, colSum df e.2))
  | [] => rfl
  | e :: m => by
    by_cases h : e.2 ∈ df.cols <;>
      simp [infrastructureProblems, h, infrastructureProblems_eq df m]

/-- The `coverage_data` loop keeps exactly the mapping entries whose
column is present, in order. -/
theorem coverageRows_eq (df : Dataset) :
    ∀ m : List (String × String),
      coverageRows df m =
        (m.filter (fun e => decide (e.2 ∈ df.cols))).map
          (fun e => (e.1, coveragePercentage df e.2, colSum df e.2,
            rowCount df - colSum df e.2))
  | [] => rfl
  | e :: m => by
    by_cases h : e.2 ∈ df.cols <;>
      simp [coverageRows, h, coverageRows_eq df m]

/-- On a {0,1}-valued column, the column sum counts the records whose
value is 1. -/
theorem sum_eq_countOnes (c : String) :
    ∀ rows : List Record, (∀ r ∈ rows, r.val c = 0 ∨ r.val c = 1) →
      (rows.map (fun r => r.val c)).sum =
        ((rows.filter (fun r => decide (r.val c = 1))).length : ℚ)
  | [], _ => by simp
  | r :: rows, h => by
    have hr := h r (List.mem_cons_self _ _)
    have ih := sum_eq_countOnes c rows (fun x hx => h x (List.mem_cons_of_mem _ hx))
    rcases hr with h0 | h1
    · have hne : ¬ (r.val c = 1) := by rw [h0]; norm_num
      simp [List.filter_cons, hne, h0, ih]
    · simp only [List.map_cons, List.sum_cons, List.filter_cons, h1]
      simp only [decide_eq_true_eq, if_pos rfl, ih]
      push_cast [List.length_cons]
      ring

/-- On rows where the bad and good indicators are mutually exclusive and
exhaustive, the two column sums add up to the row count. -/
theorem badGood_sum (bad good : String) :
    ∀ rows : List Record,
      (∀ r ∈ rows, (r.val bad = 1 ∧ r.val good = 0) ∨
        (r.val bad = 0 ∧ r.val good = 1)) →
      (rows.map (fun r => r.val bad)).sum + (rows.map (fun r => r.val good)).sum
        = (rows.length : ℚ)
  | [], _ => by simp
  | r :: rows, h => by
    have hr := h r (List.mem_cons_self _ _)
    have ih := badGood_sum bad good rows (fun x hx => h x (List.mem_cons_of_mem _ hx))
    rcases hr with ⟨h1, h2⟩ | ⟨h1, h2⟩ <;>
      · simp only [List.map_cons, List.sum_cons, List.length_cons, h1, h2]
        push_cast
        linarith

/-- `takeWhile` passes over a prefix all of whose elements satisfy the
predicate. -/
theorem takeWhile_append_all {α : Type} {p : α → Bool} :
    ∀ {l m : List α}, (∀ x ∈ l, p x = true) →
      (l ++ m).takeWhile p = l ++ m.takeWhile p
  | [], _, _ => rfl
  | a :: l, m, h => by
    rw [List.cons_append, List.takeWhile_cons_of_pos (h a (List.mem_cons_self _ _)),
      takeWhile_append_all (fun x hx => h x (List.mem_cons_of_mem _ hx)),
      List.cons_append]

theorem string_eq_empty_of_data {b : String} (h : b.data = []) : b = "" := by
  cases b with
  | mk d => rw [show d = [] from h]

/-- The regex `/([^/]+)$` applied to a string of the shape `a ++ "/" ++ b`
with `b` nonempty and slash-free extracts exactly `b`. -/
theorem extractGovernorate_eq (a b : String) (h1 : '/' ∉ b.data) (h2 : b ≠ "") :
    extractGovernorate (a ++ "/" ++ b) = some b := by
  have hdata : (a ++ "/" ++ b).data = (a.data ++ ['/']) ++ b.data := by
    rw [String.data_append, String.data_append]
  have hrev : (a ++ "/" ++ b).data.reverse
      = b.data.reverse ++ ('/' :: a.data.reverse) := by
    rw [hdata, List.reverse_append, List.reverse_append]
    simp
  have hall : ∀ c ∈ b.data.reverse, (fun c => decide (c ≠ '/')) c = true := by
    intro c hc
    simp only [decide_eq_true_eq]
    intro hceq
    exact h1 (hceq ▸ List.mem_reverse.mp hc)
  have hseg : ((a ++ "/" ++ b).data.reverse).takeWhile (fun c => decide (c ≠ '/'))
      = b.data.reverse := by
    rw [hrev, takeWhile_append_all hall, List.takeWhile_cons_of_neg, List.append_nil]
    simp
  have hmem : '/' ∈ (a ++ "/" ++ b).data.reverse := by
    rw [hrev]
    exact List.mem_append_right _ (List.mem_cons_self _ _)
  have hne : b.data.reverse ≠ [] := by
    intro hnil
    exact h2 (string_eq_empty_of_data (by simpa using congrArg List.reverse hnil))
  show (if '/' ∈ (a ++ "/" ++ b).data.reverse ∧
      ((a ++ "/" ++ b).data.reverse).takeWhile (fun c => decide (c ≠ '/')) ≠ []
    then some (String.mk ((((a ++ "/" ++ b).data.reverse).takeWhile
      (fun c => decide (c ≠ '/'))).reverse))
    else none) = some b
  rw [hseg, if_pos ⟨hmem, hne⟩, List.reverse_reverse]

/-! ### Group keys -/

theorem groupKeys_nodup (df : Dataset) : (groupKeys df).Nodup :=
  (List.perm_insertionSort strLe (regionList df).dedup).symm.nodup
    (List.nodup_dedup _)

theorem mem_groupKeys {df : Dataset} {g : String} :
    g ∈ groupKeys df ↔ g ∈ regionList df :=
  (List.mem_insertionSort strLe).trans List.mem_dedup

theorem mainRoadsAgg_fst_perm (df : Dataset) (c : String) :
    ((mainRoadsAgg df c).map Prod.fst).Perm (groupKeys df) := by
  have h := (List.perm_insertionSort valueDesc
    ((groupKeys df).map (fun g => (g, groupMean df c g)))).map Prod.fst
  simpa [mainRoadsAgg, List.map_map, Function.comp_def] using h

/-! ### Concrete example data -/

/-- Row valuation given by an association list, zero elsewhere. -/
def indicatorVal (l : List (String × ℚ)) : String → ℚ :=
  fun c =>
    match l.find? (fun p => p.1 == c) with
    | some p => p.2
    | none => 0

/-! ### Claim theorems -/

/-- Claim C6: the loader derives the region attribute as the substring of
the compound `refArea` field after the final `/`, and normalises column
names by trimming surrounding whitespace, so whitespace variants of a
name are mapped to the same field. -/
theorem loader_region_and_normalize (a b s t : String)
    (h1 : '/' ∉ b.data) (h2 : b ≠ "")
    (h3 : normalizeName s = normalizeName t) :
    extractGovernorate (a ++ "/" ++ b) = some b ∧
      normalizeColumns [s] = normalizeColumns [t] :=
  ⟨extractGovernorate_eq a b h1 h2, by simp [normalizeColumns, h3]⟩

theorem loader_region_and_normalize_witness :
    extractGovernorate ("http://dbpedia.org/page" ++ "/" ++ "Akkar_Governorate")
        = some "Akkar_Governorate" ∧
      normalizeColumns [" State of the main roads - good "]
        = normalizeColumns ["State of the main roads - good"] :=
  loader_region_and_normalize "http://dbpedia.org/page" "Akkar_Governorate"
    " State of the main roads - good " "State of the main roads - good"
    (by decide) (by decide) (by decide)

/-- Claim C7: `correlation` is the standard Pearson coefficient on
aggregates with at least two data points, and on fewer than two points
it returns the distinct `Undefined` sentinel (`none`), never a numeric
value. -/
theorem correlation_undefined_guard (xs ys : List ℚ) :
    (xs.length < 2 ∨ ys.length < 2 → correlation xs ys = none) ∧
      (2 ≤ xs.length → 2 ≤ ys.length →
        correlation xs ys = some (pearson xs ys)) := by
  constructor
  · intro h
    rw [correlation, if_pos h]
  · intro h1 h2
    rw [correlation, if_neg (not_or.mpr ⟨by omega, by omega⟩)]

theorem correlation_undefined_guard_witness :
    correlation [(1 : ℚ)] [(2 : ℚ)] = none ∧
      correlation [(0 : ℚ), 1] [(0 : ℚ), 1]
        = some (pearson [(0 : ℚ), 1] [(0 : ℚ), 1]) :=
  ⟨(correlation_undefined_guard [(1 : ℚ)] [(2 : ℚ)]).1 (Or.inl (by decide)),
   (correlation_undefined_guard [(0 : ℚ), 1] [(0 : ℚ), 1]).2 (by decide) (by decide)⟩

/-- Claim C8: a missing source file makes `load` signal `DataUnavailable`
rather than terminating, and the caller substitutes the fixed synthetic
dataset, so the pipeline always receives a valid dataset; a present file
is loaded as-is. -/
theorem load_fallback (src : String → Option Dataset) (path : String) :
    (src path = none →
      load src path = Except.error LoadError.dataUnavailable ∧
        loadOrSynthetic src path = syntheticDataset) ∧
      (∀ d : Dataset, src path = some d →
        load src path = Except.ok d ∧ loadOrSynthetic src path = d) := by
  constructor
  · intro h
    constructor
    · rw [load, h]
    · rw [loadOrSynthetic, load, h]
  · intro d h
    constructor
    · rw [load, h]
    · rw [loadOrSynthetic, load, h]

def noFiles : String → Option Dataset := fun _ => none

theorem load_fallback_witness :
    load noFiles "public transportation.csv"
        = Except.error LoadError.dataUnavailable ∧
      loadOrSynthetic noFiles "public transportation.csv" = syntheticDataset :=
  (load_fallback noFiles "public transportation.csv").1 rfl

/-- Claim C9: the counter starts at 0 and no interaction (increment by 1
or by a slider value between 1 and 10) ever decreases it, so every
reachable count is a non-negative integer. -/
theorem counter_invariant :
    (∀ (s : ℤ) (e : CounterEvent), validEvent e → s ≤ counterStep s e) ∧
      (∀ s : ℤ, ReachableCount s → 0 ≤ s) := by
  have hmono : ∀ (s : ℤ) (e : CounterEvent), validEvent e → s ≤ counterStep s e := by
    intro s e he
    cases e with
    | clickOne => simp [counterStep]
    | clickSlider i =>
      obtain ⟨hlo, _⟩ := he
      simp only [counterStep]
      linarith
  refine ⟨hmono, ?_⟩
  intro s hs
  induction hs with
  | init => exact le_refl 0
  | step s e hr hv ih => exact le_trans ih (hmono s e hv)

theorem counter_invariant_witness :
    (3 : ℤ) ≤ counterStep 3 (CounterEvent.clickSlider 5) ∧
      (0 : ℤ) ≤ counterStep (counterStep 0 CounterEvent.clickOne)
        CounterEvent.clickOne :=
  ⟨counter_invariant.1 3 (CounterEvent.clickSlider 5) (by decide),
   counter_invariant.2 _
     (ReachableCount.step _ CounterEvent.clickOne
       (ReachableCount.step _ CounterEvent.clickOne ReachableCount.init trivial)
       trivial)⟩

/-- Claim C10: the transport-mode distribution keeps exactly the modes
whose indicator-column sum over the dataset is strictly positive. -/
theorem transportModes_iff_positive (df : Dataset) :
    (∀ p ∈ transportModes df, p ∈ transportModesBase df ∧ 0 < p.2) ∧
      (∀ p ∈ transportModesBase df, (p ∈ transportModes df ↔ 0 < p.2)) := by
  constructor
  · intro p hp
    have h := List.mem_filter.mp hp
    exact ⟨h.1, by simpa using h.2⟩
  · intro p hp
    constructor
    · intro h
      simpa using (List.mem_filter.mp h).2
    · intro h
      exact List.mem_filter.mpr ⟨hp, by simpa using h⟩

def dsPie : Dataset :=
  ⟨[busCol, vanCol, taxiCol], [⟨"Akkar", indicatorVal [(busCol, 2)]⟩]⟩

theorem transportModes_iff_positive_witness :
    ("Buses", colSum dsPie busCol) ∈ transportModes dsPie ∧
      ¬ ("Vans", colSum dsPie vanCol) ∈ transportModes dsPie :=
  ⟨((transportModes_iff_positive dsPie).2 ("Buses", colSum dsPie busCol)
      (by simp [transportModesBase])).mpr
    (by simp [colSum, dsPie, indicatorVal, busCol]),
   fun h => by
    have := ((transportModes_iff_positive dsPie).2 ("Vans", colSum dsPie vanCol)
      (by simp [transportModesBase])).mp h
    simp [colSum, dsPie, indicatorVal, vanCol, busCol] at this⟩

/-- Claim C1: `serviceBadness` returns, for each mapping entry whose
indicator column is in the schema, the triple of service name,
percentage `count-of-ones / total × 100` and count, omits every entry
whose column is absent, and never fails: its output is exactly the image
of the present entries (up to the final ordering of the rows). -/
theorem serviceBadness_characterization (ds : Dataset) (R : List String)
    (m : List (String × String))
    (hbin : ∀ e ∈ m, ∀ r ∈ (filterRegions ds R).rows,
      r.val e.2 = 0 ∨ r.val e.2 = 1) :
    (serviceBadness ds R m).Perm
      ((m.filter (fun e => decide (e.2 ∈ ds.cols))).map
        (fun e => (e.1,
          (countOnes (filterRegions ds R) e.2 : ℚ)
            / rowCount (filterRegions ds R) * 100,
          (countOnes (filterRegions ds R) e.2 : ℚ)))) := by
  have heq : infrastructureProblems (filterRegions ds R) m
      = (m.filter (fun e => decide (e.2 ∈ ds.cols))).map
        (fun e => (e.1,
          (countOnes (filterRegions ds R) e.2 : ℚ)
            / rowCount (filterRegions ds R) * 100,
          (countOnes (filterRegions ds R) e.2 : ℚ))) := by
    rw [infrastructureProblems_eq]
    show (m.filter (fun e => decide (e.2 ∈ ds.cols))).map
        (fun e => (e.1, problemPercentage (filterRegions ds R) e.2,
          colSum (filterRegions ds R) e.2)) = _
    apply List.map_congr_left
    intro e he
    have hcount : colSum (filterRegions ds R) e.2
        = (countOnes (filterRegions ds R) e.2 : ℚ) :=
      sum_eq_countOnes e.2 (filterRegions ds R).rows
        (hbin e (List.mem_of_mem_filter he))
    rw [problemPercentage, hcount]
  exact (List.perm_insertionSort severityAsc _).trans (by rw [heq])

def dsSvc : Dataset :=
  ⟨["State of the main roads - bad"],
   [⟨"Akkar", indicatorVal [("State of the main roads - bad", 1)]⟩,
    ⟨"Beirut", indicatorVal []⟩]⟩

def svcMapping : List (String × String) :=
  [("Main Roads", "State of the main roads - bad"),
   ("Water Network", "Water Network - bad")]

theorem serviceBadness_characterization_witness :
    (serviceBadness dsSvc ["Akkar", "Beirut"] svcMapping).Perm
      ((svcMapping.filter (fun e => decide (e.2 ∈ dsSvc.cols))).map
        (fun e => (e.1,
          (countOnes (filterRegions dsSvc ["Akkar", "Beirut"]) e.2 : ℚ)
            / rowCount (filterRegions dsSvc ["Akkar", "Beirut"]) * 100,
          (countOnes (filterRegions dsSvc ["Akkar", "Beirut"]) e.2 : ℚ)))) :=
  serviceBadness_characterization dsSvc ["Akkar", "Beirut"] svcMapping
    (by decide)

/-- Claim C5: the regions of the output of `aggregateByRegion` are
exactly the filter intersected with the regions of the dataset, each
appearing once. -/
theorem aggregateByRegion_regions_exact (ds : Dataset) (R : List String)
    (c : String) (_hR : ∀ g ∈ R, g ∈ regionList ds) :
    ((aggregateByRegion ds R c).map Prod.fst).Nodup ∧
      ∀ g : String,
        g ∈ (aggregateByRegion ds R c).map Prod.fst ↔
          g ∈ R ∧ g ∈ regionList ds := by
  have hperm := mainRoadsAgg_fst_perm (filterRegions ds R) c
  refine ⟨hperm.symm.nodup (groupKeys_nodup _), ?_⟩
  intro g
  show g ∈ (mainRoadsAgg (filterRegions ds R) c).map Prod.fst ↔
    g ∈ R ∧ g ∈ regionList ds
  rw [hperm.mem_iff, mem_groupKeys]
  simp only [regionList, filterRegions, List.mem_map, List.mem_filter,
    decide_eq_true_eq]
  constructor
  · rintro ⟨r, ⟨hr, hrR⟩, rfl⟩
    exact ⟨hrR, r, hr, rfl⟩
  · rintro ⟨hgR, r, hr, rfl⟩
    exact ⟨r, ⟨hr, hgR⟩, rfl⟩

def dsReg : Dataset :=
  ⟨["c"], [⟨"Beirut", indicatorVal [("c", 1)]⟩, ⟨"Akkar", indicatorVal []⟩]⟩

theorem aggregateByRegion_regions_exact_witness :
    ((aggregateByRegion dsReg ["Akkar"] "c").map Prod.fst).Nodup ∧
      ("Akkar" ∈ (aggregateByRegion dsReg ["Akkar"] "c").map Prod.fst ↔
        "Akkar" ∈ ["Akkar"] ∧ "Akkar" ∈ regionList dsReg) :=
  ⟨(aggregateByRegion_regions_exact dsReg ["Akkar"] "c" (by decide)).1,
   (aggregateByRegion_regions_exact dsReg ["Akkar"] "c" (by decide)).2 "Akkar"⟩

/-- Claim C2, as amended: the output of `aggregateByRegion` is
non-increasing in value and is a rearrangement of the per-region means;
the relative order of rows with equal values is implementation-defined
(pandas' default quicksort is not stable) and in particular is not the
input-dataset order of the regions. -/
theorem aggregateByRegion_sorted_desc (ds : Dataset) (R : List String)
    (c : String) :
    (aggregateByRegion ds R c).Pairwise (fun p q => q.2 ≤ p.2) ∧
      (aggregateByRegion ds R c).Perm
        ((groupKeys (filterRegions ds R)).map
          (fun g => (g, groupMean (filterRegions ds R) c g))) :=
  ⟨List.sorted_insertionSort valueDesc
      ((groupKeys (filterRegions ds R)).map
        (fun g => (g, groupMean (filterRegions ds R) c g))),
   List.perm_insertionSort valueDesc _⟩

theorem aggregateByRegion_sorted_desc_witness :
    (aggregateByRegion dsReg ["Akkar", "Beirut"] "c").Pairwise
        (fun p q => q.2 ≤ p.2) ∧
      (aggregateByRegion dsReg ["Akkar", "Beirut"] "c").Perm
        ((groupKeys (filterRegions dsReg ["Akkar", "Beirut"])).map
          (fun g =>
            (g, groupMean (filterRegions dsReg ["Akkar", "Beirut"]) "c" g))) :=
  aggregateByRegion_sorted_desc dsReg ["Akkar", "Beirut"] "c"

/-- Formalisation of claim C2 as stated: values non-increasing, and ties
ordered by the first occurrence of the region in the input dataset. -/
def claimTieOrder (ds : Dataset) (R : List String) (c : String) : Prop :=
  (aggregateByRegion ds R c).Pairwise (fun p q => q.2 ≤ p.2) ∧
    (aggregateByRegion ds R c).Pairwise (fun p q => p.2 = q.2 →
      (regionList ds).indexOf p.1 < (regionList ds).indexOf q.1)

def dsTies : Dataset :=
  ⟨["c"], [⟨"B", indicatorVal [("c", 1)]⟩, ⟨"A", indicatorVal [("c", 1)]⟩]⟩

theorem aggregateByRegion_inputTieOrder_false :
    ¬ claimTieOrder dsTies ["A", "B"] "c" := by
  have hkeys : groupKeys (filterRegions dsTies ["A", "B"]) = ["A", "B"] := by
    decide
  have hgrA : groupRows (filterRegions dsTies ["A", "B"]) "A"
      = [⟨"A", indicatorVal [("c", 1)]⟩] := rfl
  have hgrB : groupRows (filterRegions dsTies ["A", "B"]) "B"
      = [⟨"B", indicatorVal [("c", 1)]⟩] := rfl
  have hiv : indicatorVal [("c", (1 : ℚ))] "c" = 1 := rfl
  have hmA : groupMean (filterRegions dsTies ["A", "B"]) "c" "A" = 1 := by
    rw [groupMean, hgrA]
    norm_num [hiv]
  have hmB : groupMean (filterRegions dsTies ["A", "B"]) "c" "B" = 1 := by
    rw [groupMean, hgrB]
    norm_num [hiv]
  have hagg : aggregateByRegion dsTies ["A", "B"] "c" = [("A", 1), ("B", 1)] := by
    rw [aggregateByRegion, mainRoadsAgg, hkeys]
    simp [hmA, hmB, valueDesc]
  intro hcl
  have hties := hcl.2
  rw [hagg] at hties
  have h := (List.pairwise_cons.mp hties).1 ("B", 1) (List.mem_cons_self _ _) rfl
  have h1 : (regionList dsTies).indexOf "A" = 1 := by decide
  have h2 : (regionList dsTies).indexOf "B" = 0 := by decide
  rw [h1, h2] at h
  omega

/-- Claim C3, as amended: on a nonempty filtered subset where the bad and
good indicator columns are present, mutually exclusive and exhaustive,
the badness and coverage percentages for the service sum to exactly
100. -/
theorem badness_coverage_sum_100 (ds : Dataset) (R : List String)
    (s bad good : String) (hbad : bad ∈ ds.cols) (hgood : good ∈ ds.cols)
    (hne : (filterRegions ds R).rows ≠ [])
    (hex : ∀ r ∈ (filterRegions ds R).rows,
      (r.val bad = 1 ∧ r.val good = 0) ∨ (r.val bad = 0 ∧ r.val good = 1)) :
    serviceBadness ds R [(s, bad)]
        = [(s, problemPercentage (filterRegions ds R) bad,
            colSum (filterRegions ds R) bad)] ∧
      serviceCoverage ds R [(s, good)]
        = [(s, coveragePercentage (filterRegions ds R) good,
            colSum (filterRegions ds R) good,
            rowCount (filterRegions ds R) - colSum (filterRegions ds R) good)] ∧
      problemPercentage (filterRegions ds R) bad
        + coveragePercentage (filterRegions ds R) good = 100 := by
  have hbad' : bad ∈ (filterRegions ds R).cols := hbad
  have hgood' : good ∈ (filterRegions ds R).cols := hgood
  refine ⟨?_, ?_, ?_⟩
  · simp [serviceBadness, infrastructureProblems, hbad']
  · simp [serviceCoverage, coverageRows, hgood']
  · have hsum : colSum (filterRegions ds R) bad + colSum (filterRegions ds R) good
        = rowCount (filterRegions ds R) :=
      badGood_sum bad good (filterRegions ds R).rows hex
    have hn : rowCount (filterRegions ds R) ≠ 0 :=
      Nat.cast_ne_zero.mpr
        (Nat.pos_iff_ne_zero.mp (List.length_pos.mpr hne))
    rw [problemPercentage, coveragePercentage, div_mul_eq_mul_div,
      div_mul_eq_mul_div, div_add_div_same, ← add_mul, hsum,
      mul_comm, mul_div_assoc, div_self hn, mul_one]

def dsEmptyBG : Dataset :=
  ⟨["Electricity - bad", "Electricity - good"], []⟩

/-- Counterexample to claim C3 as stated: on the empty filtered subset
the hypotheses of the claim hold vacuously, yet the two percentages sum
to 0, not 100 (in pandas the unguarded `0/0` gives `NaN`, likewise not
100). -/
theorem badness_coverage_sum_100_empty_false :
    "Electricity - bad" ∈ dsEmptyBG.cols ∧
      "Electricity - good" ∈ dsEmptyBG.cols ∧
      (∀ r ∈ (filterRegions dsEmptyBG ["Akkar"]).rows,
        (r.val "Electricity - bad" = 1 ∧ r.val "Electricity - good" = 0) ∨
          (r.val "Electricity - bad" = 0 ∧ r.val "Electricity - good" = 1)) ∧
      problemPercentage (filterRegions dsEmptyBG ["Akkar"]) "Electricity - bad"
          + coveragePercentage (filterRegions dsEmptyBG ["Akkar"])
            "Electricity - good" ≠ 100 := by
  refine ⟨by simp [dsEmptyBG], by simp [dsEmptyBG], ?_, ?_⟩
  · intro r hr
    simp [filterRegions, dsEmptyBG] at hr
  · norm_num [problemPercentage, coveragePercentage, colSum, rowCount,
      filterRegions, dsEmptyBG]

def dsCover : Dataset :=
  ⟨["Electricity - bad", "Electricity - good"],
   [⟨"Akkar", indicatorVal [("Electricity - bad", 1)]⟩,
    ⟨"Beirut", indicatorVal [("Electricity - good", 1)]⟩]⟩

theorem badness_coverage_sum_100_witness :
    serviceBadness dsCover ["Akkar", "Beirut"] [("Electricity", "Electricity - bad")]
        = [("Electricity",
            problemPercentage (filterRegions dsCover ["Akkar", "Beirut"])
              "Electricity - bad",
            colSum (filterRegions dsCover ["Akkar", "Beirut"]) "Electricity - bad")] ∧
      serviceCoverage dsCover ["Akkar", "Beirut"] [("Electricity", "Electricity - good")]
        = [("Electricity",
            coveragePercentage (filterRegions dsCover ["Akkar", "Beirut"])
              "Electricity - good",
            colSum (filterRegions dsCover ["Akkar", "Beirut"]) "Electricity - good",
            rowCount (filterRegions dsCover ["Akkar", "Beirut"])
              - colSum (filterRegions dsCover ["Akkar", "Beirut"])
                "Electricity - good")] ∧
      problemPercentage (filterRegions dsCover ["Akkar", "Beirut"]) "Electricity - bad"
        + coveragePercentage (filterRegions dsCover ["Akkar", "Beirut"])
          "Electricity - good" = 100 :=
  badness_coverage_sum_100 dsCover ["Akkar", "Beirut"] "Electricity"
    "Electricity - bad" "Electricity - good" (by simp [dsCover])
    (by simp [dsCover]) (List.cons_ne_nil _ _) (by decide)

/-- Claim C4, as amended: on an empty filtered subset,
`aggregateByRegion`, `aggregateTransportSums` and the transport-mode
distribution are empty, but `serviceBadness` and `serviceCoverage` still
return one entry per present mapping column — the division by the zero
total is not guarded — so not every aggregate is empty. -/
theorem empty_filter_aggregates (ds : Dataset) (R : List String) (c : String)
    (m : List (String × String)) (h : (filterRegions ds R).rows = []) :
    aggregateByRegion ds R c = [] ∧
      aggregateTransportSums ds R = [] ∧
      transportModes (filterRegions ds R) = [] ∧
      (serviceBadness ds R m).length
        = (m.filter (fun e => decide (e.2 ∈ ds.cols))).length ∧
      (serviceCoverage ds R m).length
        = (m.filter (fun e => decide (e.2 ∈ ds.cols))).length := by
  have hkeys : groupKeys (filterRegions ds R) = [] := by
    rw [groupKeys, regionList, h]
    rfl
  have hsum : ∀ col : String, colSum (filterRegions ds R) col = 0 := by
    intro col
    rw [colSum, h]
    rfl
  refine ⟨?_, ?_, ?_, ?_, ?_⟩
  · rw [aggregateByRegion, mainRoadsAgg, hkeys]
    rfl
  · rw [aggregateTransportSums]
    simp only [hkeys, List.map_nil]
  · simp [transportModes, transportModesBase, hsum]
  · rw [serviceBadness, List.length_insertionSort, infrastructureProblems_eq,
      List.length_map]
    exact rfl
  · rw [serviceCoverage, List.length_insertionSort, coverageRows_eq,
      List.length_map]
    exact rfl

def dsRowOne : Dataset :=
  ⟨["c"], [⟨"Akkar", indicatorVal [("c", 1)]⟩]⟩

/-- Counterexample to claim C4 as stated: an empty explicit region
selection on a nonempty dataset leaves `serviceBadness` nonempty — it
returns one (NaN-percentage, in pandas) entry per present column instead
of an empty result. -/
theorem empty_filter_serviceBadness_nonempty :
    dsRowOne.rows.length = 1 ∧ (filterRegions dsRowOne []).rows = [] ∧
      serviceBadness dsRowOne [] [("Service", "c")] ≠ [] := by
  refine ⟨rfl, rfl, ?_⟩
  simp [serviceBadness, infrastructureProblems, dsRowOne]

theorem empty_filter_aggregates_witness :
    aggregateByRegion dsRowOne [] "c" = [] ∧
      aggregateTransportSums dsRowOne [] = [] ∧
      transportModes (filterRegions dsRowOne []) = [] ∧
      (serviceBadness dsRowOne [] [("Service", "c")]).length
        = ([("Service", "c")].filter
            (fun e => decide (e.2 ∈ dsRowOne.cols))).length ∧
      (serviceCoverage dsRowOne [] [("Service", "c")]).length
        = ([("Service", "c")].filter
            (fun e => decide (e.2 ∈ dsRowOne.cols))).length :=
  empty_filter_aggregates dsRowOne [] "c" [("Service", "c")] rfl

end PublicTransport
